import Mathlib

/-!
Shallow embedding of the expression AST of src/ox/target/python/expr_ast.py.

The file embeds the node taxonomy as a closed inductive type, the token
rendering (the per-variant "tokens" generators) as a function producing the
list of text fragments, the wrapping predicates, the coercion entry point
"to_expr", the constant-folding hooks "from_static_children", and the call
argument builder "generate_args" / "Call.from_args" / "Call.add_args".

Parts of the repository live outside src/ (the generic "ox.ast" tree
framework, "ox.ast.utils" with "wrap_tokens", and the "operators" enum
module).  Those are modelled from the spec where the embedded code needs
them; each such definition carries a doc comment saying so.

Modelling conventions:
  * Python exceptions are embedded with "Except Err": an embedded function
    returns ".error" exactly where the source raises.
  * Generators that are always fully consumed by their callers (the source
    wraps "generate_args" in "list(...)" / "extend(...)") are embedded as
    functions returning the whole fragment/argument list, with an error
    aborting the run, matching eager consumption.
  * The opaque rendering context "ctx" is threaded through the source
    unmodified and never inspected by the expression layer, so it is elided
    from the embedded "tokens".
  * Python floating point and complex literals are carried opaquely (by
    their literal text): no claim computes with them, only their type tag
    matters (for the numeric-atom wrapping rule).
-/

/-- Err models the Python exception classes raised by the embedded code:
the spec names them ArgumentOrderError (a ValueError in the source),
ArgumentTypeError (a TypeError), InvalidOperandError (the TypeError family
with message "invalid operation with void node: ..."), and
UnsupportedValueError (coercion-registry lookup failure). -/
inductive Err where
  | typeError (msg : String)
  | valueError (msg : String)
  | runtimeError (msg : String)
  | zeroDivisionError (msg : String)
  | unsupportedValue (clsName : String)
deriving DecidableEq, Repr

/-- PyVal models the fixed set of primitive atom kinds of the source
("PyAtom = (NoneType, ellipsis, bool, int, float, complex, str, bytes)").
Float, complex and bytes payloads are opaque literal texts. -/
inductive PyVal where
  | none
  | ellipsis
  | bool (b : Bool)
  | int (n : Int)
  | float (lit : String)
  | complex (lit : String)
  | str (s : String)
  | bytes (lit : String)
deriving DecidableEq, Repr

/-- Numeric test used by the GetAttr / Call wrapping rule of the source:
"isinstance(value, (int, float, complex))".  In Python, bool is a subclass
of int, so a boolean value satisfies the isinstance check as well. -/
def PyVal.isNumeric : PyVal → Bool
  | .bool _ => true
  | .int _ => true
  | .float _ => true
  | .complex _ => true
  | _ => false

/-- Modelled from the spec: repr of a primitive value, as used by
Atom.tokens ("repr(self.value)").  The ellipsis special case lives in
Atom.tokens itself, so here the ellipsis value gets its generic Python
repr "Ellipsis".  String escaping is simplified to plain quoting; no claim
renders a string atom containing quotes. -/
def pyRepr : PyVal → String
  | .none => "None"
  | .ellipsis => "Ellipsis"
  | .bool b => if b then "True" else "False"
  | .int n => toString n
  | .float lit => lit
  | .complex lit => lit
  | .str s => "\x27" ++ s ++ "\x27"
  | .bytes lit => "b\x27" ++ lit ++ "\x27"

/-- Modelled from the spec: the binary-operator tags of the missing
"operators" module (BinaryOp enum).  Comparisons and boolean operators are
excluded, as in the source's BinOp docstring. -/
inductive BinaryOpTag where
  | add
  | sub
  | mul
  | truediv
  | floordiv
  | mod
  | pow
  | matmul
  | lshift
  | rshift
  | bitand
  | bitor
  | bitxor
deriving DecidableEq, Repr

/-- Modelled from the spec: the textual operator symbol (the enum member's
"value" attribute used by BinOp.tokens as "self.op.value"). -/
def BinaryOpTag.value : BinaryOpTag → String
  | .add => "+"
  | .sub => "-"
  | .mul => "*"
  | .truediv => "/"
  | .floordiv => "//"
  | .mod => "%"
  | .pow => "**"
  | .matmul => "@"
  | .lshift => "<<"
  | .rshift => ">>"
  | .bitand => "&"
  | .bitor => "|"
  | .bitxor => "^"

/-- Modelled from the spec: precedence levels, a total order over binary
operators derived from the operator tag ("BinOp carries a precedence level
derived from op"), following the target language's grammar: "|" lowest,
then "^", "&", shifts, additive, multiplicative, then "**". -/
def BinaryOpTag.precedence_level : BinaryOpTag → Nat
  | .bitor => 1
  | .bitxor => 2
  | .bitand => 3
  | .lshift => 4
  | .rshift => 4
  | .add => 5
  | .sub => 5
  | .mul => 6
  | .truediv => 6
  | .floordiv => 6
  | .mod => 6
  | .matmul => 6
  | .pow => 7

/-- Modelled from the spec: the unary-operator tags of the missing
"operators" module (UnaryOp enum). -/
inductive UnaryOpTag where
  | pos
  | neg
  | invert
  | not
deriving DecidableEq, Repr

/-- Modelled from the spec: the unary operator symbol (enum "value"). -/
def UnaryOpTag.value : UnaryOpTag → String
  | .pos => "+"
  | .neg => "-"
  | .invert => "~"
  | .not => "not "

/-- Expr embeds the closed node taxonomy of the source file as a tagged
union (the spec's own suggested reimplementation of the subclass
hierarchy).  Constructor fields follow the source attribute order.  The
Call argument Tree is embedded directly as the list of its children.
Renamings forced by the host language: ArgDef's fields default and
annotation are called dflt and annot, Ternary's field then is then_.
Lambda is omitted: its rendering is not defined in the embedded file and
no claim mentions it. -/
inductive Expr where
  | Atom (value : PyVal)
  | Name (id : String)
  | Void
  | And (lhs rhs : Expr)
  | Or (lhs rhs : Expr)
  | UnaryOp (tag : UnaryOpTag) (expr : Expr)
  | BinOp (tag : BinaryOpTag) (lhs rhs : Expr)
  | GetAttr (expr : Expr) (attr : String)
  | Call (expr : Expr) (args : List Expr)
  | Starred (expr : Expr) (kwstar : Bool)
  | Keyword (expr : Expr) (name : String)
  | Ternary (cond then_ other : Expr)
  | ArgDef (name dflt annot : Expr)
  | Yield (expr : Expr)
  | YieldFrom (expr : Expr)

/-- Modelled from the spec: Python truthiness of a node, used by
ArgDef.tokens ("if self.annotation:", "if self.default:").  Void is the
falsy absence sentinel (spec section 4.4: Void marks an unset
default/annotation); every other node is an ordinary truthy object. -/
def Expr.truthy : Expr → Bool
  | .Void => false
  | _ => true

/-- Test for the Ternary variant, used by Ternary.tokens
("isinstance(then, Ternary)"). -/
def Expr.isTernary : Expr → Bool
  | .Ternary _ _ _ => true
  | _ => false

/-- Test for the And / Or variants, used by Starred.tokens
("isinstance(self.expr, (And, Or))"). -/
def Expr.isAndOr : Expr → Bool
  | .And _ _ => true
  | .Or _ _ => true
  | _ => false

/-- Modelled from the spec: "wrap_tokens" of the missing ox.ast.utils —
encloses a fragment sequence in literal parentheses when wrap is true,
passes it through unchanged otherwise. -/
def wrap_tokens (ts : List String) (wrap : Bool) : List String :=
  if wrap then "(" :: (ts ++ [")"]) else ts

/-- BinOp.wrap_child_tokens from the source: a BinOp child is wrapped
exactly when its precedence level is strictly below the parent's
("self.precedence_level > child.precedence_level"); a UnaryOp, And or Or
child is always wrapped; every other child is not.  The role argument is
ignored by the source body. -/
def BinOp.wrap_child_tokens (tag : BinaryOpTag) (child : Expr) (role : String) : Bool :=
  match child with
  | .BinOp tag2 _ _ => tag.precedence_level > tag2.precedence_level
  | .UnaryOp _ _ => true
  | .And _ _ => true
  | .Or _ _ => true
  | _ => false

/-- GetAttr.wrap_child_tokens from the source: the base is wrapped when it
is a BinOp, UnaryOp, And or Or, or an Atom holding a numeric value.  The
source body reads self.expr (the base) regardless of the passed child, so
the predicate is a function of the base alone. -/
def GetAttr.wrap_child_tokens (base : Expr) : Bool :=
  match base with
  | .BinOp _ _ _ => true
  | .UnaryOp _ _ => true
  | .And _ _ => true
  | .Or _ _ => true
  | .Atom v => v.isNumeric
  | _ => false

mutual

/-- Token rendering, per node variant, as in the source (BinOp.tokens,
UnaryOp.tokens, Atom.tokens, Starred.tokens, Keyword.tokens, Call.tokens,
ArgDef.tokens, Ternary.tokens).  Parts supplied by the missing framework,
modelled from the spec: Name renders its identifier; And/Or render by
their command templates "lhs and rhs" / "lhs or rhs"; Yield/YieldFrom by
their fixed templates; GetAttr assembles base fragments (wrapped per its
wrap_child_tokens), a literal dot and the attribute name; "child_tokens"
wraps a child's fragments per the parent's wrap_child_tokens predicate.
Void must never reach rendering in a valid tree (rendering it raises); it
contributes no fragments here, and the error paths of its operations are
embedded separately below. -/
def Expr.tokens : Expr → List String
  | .Atom .ellipsis => ["..."]
  | .Atom v => [pyRepr v]
  | .Name s => [s]
  | .Void => []
  | .And l r => l.tokens ++ [" and "] ++ r.tokens
  | .Or l r => l.tokens ++ [" or "] ++ r.tokens
  | .UnaryOp t e => t.value :: e.tokens
  | .BinOp t l r =>
      wrap_tokens l.tokens (BinOp.wrap_child_tokens t l "lhs")
        ++ [" " ++ t.value ++ " "]
        ++ wrap_tokens r.tokens (BinOp.wrap_child_tokens t r "rhs")
  | .GetAttr e a => wrap_tokens e.tokens (GetAttr.wrap_child_tokens e) ++ [".", a]
  | .Call e args =>
      (if (match e with
           | .BinOp _ _ _ => true
           | .UnaryOp _ _ => true
           | .And _ _ => true
           | .Or _ _ => true
           | _ => false) then
        wrap_tokens e.tokens true
       else if (match e with
           | .Atom v => v.isNumeric
           | _ => false) then
        wrap_tokens e.tokens true
       else e.tokens)
        ++ ["("] ++ Expr.argsTokens args ++ [")"]
  | .Starred e kw => (if kw then "**" else "*") :: wrap_tokens e.tokens e.isAndOr
  | .Keyword e n => [n, "="] ++ e.tokens
  | .Ternary c t o =>
      wrap_tokens t.tokens t.isTernary
        ++ [" if "]
        ++ wrap_tokens c.tokens c.isTernary
        ++ [" else "]
        ++ o.tokens
  | .ArgDef n d a =>
      n.tokens
        ++ (if a.truthy then
              [": "] ++ a.tokens ++ (if d.truthy then [" = "] ++ d.tokens else [])
            else [])
        ++ (if d.truthy then ["="] ++ d.tokens else [])
  | .Yield e => ["(yield "] ++ e.tokens ++ [")"]
  | .YieldFrom e => ["(yield from "] ++ e.tokens ++ [")"]

/-- Argument-list fragments of Call.tokens: the first argument's fragments,
then each further argument preceded by the ", " separator (the source's
explicit first-then-rest iterator loop). -/
def Expr.argsTokens : List Expr → List String
  | [] => []
  | a :: rest => Expr.tokens a ++ Expr.argsRest rest

/-- The ", "-prefixed fragments of every argument after the first. -/
def Expr.argsRest : List Expr → List String
  | [] => []
  | a :: rest => ", " :: (Expr.tokens a ++ Expr.argsRest rest)

end

/-- The rendered source text of an expression: its fragments joined. -/
def exprStr (e : Expr) : String :=
  String.join e.tokens

/-- ArgInput models the raw Python values a caller may pass positionally to
generate_args / Call.from_args / Call.add_args: an expression node, a
string (marker or starred-name shorthand), or any other host object, kept
only by its class name (which the source reads for its error message). -/
inductive ArgInput where
  | expr (e : Expr)
  | str (s : String)
  | other (clsName : String)

/-- Python's str.startswith, on the character sequence. -/
def pyStartsWith (s p : String) : Bool :=
  p.toList.isPrefixOf s.toList

/-- The coercion entry point "to_expr = Expr._meta.coerce" on primitive
values.  Modelled from the spec: a plain string is wrapped in Name (NOT
Atom); every other primitive atom kind is wrapped in Atom.  (The
already-an-Expr case of the registry returns the node unchanged and is
embedded where needed by passing the node itself.) -/
def to_expr : PyVal → Expr
  | .str s => .Name s
  | v => .Atom v

/-- Modelled from the spec: eager child coercion when a node constructor
receives a raw positional value (the registry runs eagerly, so
"Starred(next(args))" accepts an expression or a bare-name string, and any
other value has no registered handler). -/
def coerceInput : ArgInput → Except Err Expr
  | .expr e => .ok e
  | .str s => .ok (.Name s)
  | .other clsName => .error (.unsupportedValue clsName)

/-- The error message of the source's ordering check in generate_args. -/
def orderMsg : String :=
  "cannot set positional argument after keyword argument"

/-- The positional loop of generate_args, carrying the has_keyword flag.
Mirrors the source exactly: a string starting with "**" sets has_keyword
and yields a double-starred node (consuming the next raw value when the
string is exactly "**"); a string starting with "*" first checks
has_keyword (raising ValueError with orderMsg), then yields a
single-starred node; any other string raises TypeError "expect expression,
got str"; a non-string non-Expr value raises TypeError naming its class;
an Expr is yielded as is — note the source performs no has_keyword check
on this branch.  Exhausting the iterator inside "next(args)" is the
generator's RuntimeError (PEP 479). -/
def genArgsAux : Bool → List ArgInput → Except Err (List Expr)
  | _, [] => .ok []
  | hasKw, .str s :: rest =>
      if pyStartsWith s "**" then
        if s = "**" then
          match rest with
          | [] => .error (.runtimeError "generator raised StopIteration")
          | x :: rest2 => do
              let e ← coerceInput x
              let l ← genArgsAux true rest2
              .ok (.Starred e true :: l)
        else do
          let l ← genArgsAux true rest
          .ok (.Starred (.Name (s.drop 2)) true :: l)
      else if pyStartsWith s "*" then
        if hasKw then .error (.valueError orderMsg)
        else if s = "*" then
          match rest with
          | [] => .error (.runtimeError "generator raised StopIteration")
          | x :: rest2 => do
              let e ← coerceInput x
              let l ← genArgsAux hasKw rest2
              .ok (.Starred e false :: l)
        else do
          let l ← genArgsAux hasKw rest
          .ok (.Starred (.Name (s.drop 1)) false :: l)
      else .error (.typeError "expect expression, got str")
  | hasKw, .expr e :: rest => do
      let l ← genArgsAux hasKw rest
      .ok (e :: l)
  | _, .other clsName :: _ =>
      .error (.typeError ("expect expression, got " ++ clsName))

/-- generate_args from the source: the positional loop (has_keyword starts
False), then one Keyword node per trailing keyword item, in order. -/
def generate_args (args : List ArgInput) (kwargs : List (String × Expr)) :
    Except Err (List Expr) :=
  (genArgsAux false args).map
    (fun l => l ++ kwargs.map (fun p => Expr.Keyword p.2 p.1))

/-- The spec's name for the fully-consumed builder,
"build_arguments(*args, **kwargs) = list(generate_args(*args, **kwargs))". -/
def build_arguments (args : List ArgInput) (kwargs : List (String × Expr)) :
    Except Err (List Expr) :=
  generate_args args kwargs

/-- Call.from_args from the source: a Call over the freshly generated
argument list. -/
def Call.from_args (e : Expr) (args : List ArgInput)
    (kwargs : List (String × Expr)) : Except Err Expr :=
  (generate_args args kwargs).map (fun l => Expr.Call e l)

/-- Call.add_args from the source, on a call with callee e and existing
argument children args0: the new arguments are generated by the very same
generate_args (with a fresh has_keyword state), appended to the existing
children, and also returned.  The mutation of the source is embedded by
returning the updated call node together with the new-argument list. -/
def Call.add_args (e : Expr) (args0 : List Expr) (args : List ArgInput)
    (kwargs : List (String × Expr)) : Except Err (Expr × List Expr) :=
  (generate_args args kwargs).map
    (fun l => (Expr.Call e (args0 ++ l), l))

/-- Modelled from the spec: BinaryOp.from_name of the missing operators
module, mapping an operator name to its enum member. -/
def BinaryOpTag.from_name : String → Option BinaryOpTag
  | "add" => some .add
  | "sub" => some .sub
  | "mul" => some .mul
  | "truediv" => some .truediv
  | "floordiv" => some .floordiv
  | "mod" => some .mod
  | "pow" => some .pow
  | "matmul" => some .matmul
  | "lshift" => some .lshift
  | "rshift" => some .rshift
  | "and_" => some .bitand
  | "or_" => some .bitor
  | "xor" => some .bitxor
  | _ => Option.none

/-- Modelled from the spec: UnaryOp.from_name of the missing operators
module. -/
def UnaryOpTag.from_name : String → Option UnaryOpTag
  | "pos" => some .pos
  | "neg" => some .neg
  | "invert" => some .invert
  | "not_" => some .not
  | _ => Option.none

/-- Expr.attr: Void raises ("invalid operation with void node: getattr");
every other node builds GetAttr(self, attr). -/
def Expr.attr : Expr → String → Except Err Expr
  | .Void, _ => .error (.typeError "invalid operation with void node: getattr")
  | e, a => .ok (.GetAttr e a)

/-- Expr.index: Void raises ("invalid operation with void node: getindex");
every other node hits the source's TODO stub, which returns the Ellipsis
placeholder — not an expression node — embedded as ".ok none". -/
def Expr.index : Expr → Expr → Except Err (Option Expr)
  | .Void, _ => .error (.typeError "invalid operation with void node: getindex")
  | _, _ => .ok Option.none

/-- Expr.binary_op: Void raises ("invalid operation with void node: binary
operator"); every other node looks the name up in the operator enum and
builds BinOp(op, self, other).  Modelled from the spec: enum lookup
failure surfaces as an error. -/
def Expr.binary_op : Expr → String → Expr → Except Err Expr
  | .Void, _, _ =>
      .error (.typeError "invalid operation with void node: binary operator")
  | e, opName, other =>
      match BinaryOpTag.from_name opName with
      | some t => .ok (.BinOp t e other)
      | Option.none => .error (.valueError ("unknown operator: " ++ opName))

/-- Expr.unary_op: Void raises ("invalid operation with void node: unary
operator"); every other node builds UnaryOp(op, self). -/
def Expr.unary_op : Expr → String → Except Err Expr
  | .Void, _ =>
      .error (.typeError "invalid operation with void node: unary operator")
  | e, opName =>
      match UnaryOpTag.from_name opName with
      | some t => .ok (.UnaryOp t e)
      | Option.none => .error (.valueError ("unknown operator: " ++ opName))

/-- Expr.comparison_op: Void raises ("invalid operation with void node:
comparison operator"); every other node hits the source's TODO stub
returning the Ellipsis placeholder, embedded as ".ok none". -/
def Expr.comparison_op : Expr → String → Expr → Except Err (Option Expr)
  | .Void, _, _ =>
      .error (.typeError "invalid operation with void node: comparison operator")
  | _, _, _ => .ok Option.none

/-- View of a primitive value as a host integer, following Python's numeric
tower where bool is a subclass of int (True behaves as 1, False as 0). -/
def PyVal.asInt : PyVal → Option Int
  | .int n => some n
  | .bool b => some (if b then 1 else 0)
  | _ => Option.none

/-- Integer case of a modelled host binary operator. -/
def intBin (f : Int → Int → Int) (a b : PyVal) : Except Err PyVal :=
  match a.asInt, b.asInt with
  | some x, some y => .ok (.int (f x y))
  | _, _ => .error (.typeError "unsupported operand type(s)")

/-- Modelled from the spec: the operator's underlying host function (the
enum member's "function" attribute of the missing operators module,
applied by BinOp.from_static_children to literal operands).  The model
covers the exactly-representable fragment of the host semantics: integer
(and bool-as-int) arithmetic with floor division/modulo and their
zero-divisor errors, and string concatenation; operations whose host
result is not representable in this embedding (true division, powers,
shifts, bitwise and matrix operators, float/complex payloads) surface as
a model-level type error. -/
def BinaryOpTag.function : BinaryOpTag → PyVal → PyVal → Except Err PyVal
  | .add, .str a, .str b => .ok (.str (a ++ b))
  | .add, a, b => intBin (fun x y => x + y) a b
  | .sub, a, b => intBin (fun x y => x - y) a b
  | .mul, a, b => intBin (fun x y => x * y) a b
  | .floordiv, a, b =>
      match a.asInt, b.asInt with
      | some x, some y =>
          if y = 0 then
            .error (.zeroDivisionError "integer division or modulo by zero")
          else .ok (.int (Int.fdiv x y))
      | _, _ => .error (.typeError "unsupported operand type(s)")
  | .mod, a, b =>
      match a.asInt, b.asInt with
      | some x, some y =>
          if y = 0 then
            .error (.zeroDivisionError "integer division or modulo by zero")
          else .ok (.int (Int.fmod x y))
      | _, _ => .error (.typeError "unsupported operand type(s)")
  | _, _, _ => .error (.typeError "unsupported operand type(s)")

/-- BinOp.from_static_children from the source, on literal children:
"to_expr(self.tag.function(lhs, rhs))" — the host function applied to the
operands, its result coerced back into a node.  A host-level error
propagates. -/
def BinOp.from_static_children (tag : BinaryOpTag) (lhs rhs : PyVal) :
    Except Err Expr :=
  (tag.function lhs rhs).map to_expr

/-- Void.from_static_children from the source: a fresh Void. -/
def Void.from_static_children : Expr :=
  Expr.Void

/-- C1: the claim's failing scenario evaluated on the code.  The source's
generate_args checks has_keyword only in the single-star string-marker
branch, so the plain positional Name("c") appended after the double-starred
argument is yielded without any error: build_arguments(Name("a"), "**",
Name("b"), Name("c")) returns [a, Starred(b, kwstar), c] instead of
raising ArgumentOrderError.  The claim's succeeding half does hold:
build_arguments(Name("a"), x=Name("b")) yields the positional a followed
by Keyword(b, name="x"). -/
theorem C1_positional_after_double_star_not_rejected :
    build_arguments
        [.expr (.Name "a"), .str "**", .expr (.Name "b"), .expr (.Name "c")] []
      = .ok [.Name "a", .Starred (.Name "b") true, .Name "c"]
    ∧ build_arguments [.expr (.Name "a")] [("x", .Name "b")]
      = .ok [.Name "a", .Keyword (.Name "b") "x"] :=
  ⟨rfl, rfl⟩

/-- C2: the claim's both-present scenario evaluated on the code.  The
second "if self.default:" in ArgDef.tokens is not an elif, so an ArgDef
with both an annotation and a default renders the default twice,
"x: int = 1=1"; the single-presence cases render as the claim says
("x=1" unannotated, "x: int" default-free). -/
theorem C2_annotated_default_rendered_twice :
    Expr.tokens (.ArgDef (.Name "x") (.Atom (.int 1)) (.Name "int"))
      = ["x", ": ", "int", " = ", "1", "=", "1"]
    ∧ exprStr (.ArgDef (.Name "x") (.Atom (.int 1)) (.Name "int")) = "x: int = 1=1"
    ∧ exprStr (.ArgDef (.Name "x") (.Atom (.int 1)) .Void) = "x=1"
    ∧ exprStr (.ArgDef (.Name "x") .Void (.Name "int")) = "x: int" :=
  ⟨rfl, rfl, rfl, rfl⟩

/-- C3 counterexample: the ordering invariant is NOT enforced across
extension calls.  On a Call whose argument list already ends with the
keyword argument x=b, a later add_args appending the plain positional
Name("c") succeeds (generate_args restarts with a fresh has_keyword
state), where the claim says it raises ArgumentOrderError. -/
theorem C3_counter_add_args_after_keyword_succeeds :
    Call.add_args (.Name "f") [.Keyword (.Name "b") "x"] [.expr (.Name "c")] []
      = .ok (.Call (.Name "f") [.Keyword (.Name "b") "x", .Name "c"], [.Name "c"]) :=
  rfl

/-- C3 amended: add_args routes through generate_args with validation
state starting fresh on every call, so ordering is checked only within a
single call and only for single-star markers.  All four cross-call
combinations succeed and extend the children without error: appending a
plain positional argument, or a single-starred argument (via the "*"
marker), to an argument list already ending in a keyword argument or in a
double-starred argument from a prior call.  Within one add_args call, a
single-star marker following a double-star marker does raise the ordering
ValueError. -/
theorem C3_per_call_order_validation :
    ∀ (e b p : Expr) (l : List Expr) (nm : String),
      (Call.add_args e (l ++ [.Keyword b nm]) [.expr p] []
        = .ok (.Call e ((l ++ [.Keyword b nm]) ++ [p]), [p]))
      ∧ (Call.add_args e (l ++ [.Starred b true]) [.expr p] []
        = .ok (.Call e ((l ++ [.Starred b true]) ++ [p]), [p]))
      ∧ (Call.add_args e (l ++ [.Keyword b nm]) [.str "*", .expr p] []
        = .ok (.Call e ((l ++ [.Keyword b nm]) ++ [.Starred p false]),
            [.Starred p false]))
      ∧ (Call.add_args e (l ++ [.Starred b true]) [.str "*", .expr p] []
        = .ok (.Call e ((l ++ [.Starred b true]) ++ [.Starred p false]),
            [.Starred p false]))
      ∧ (Call.add_args e l [.str "**", .expr b, .str "*", .expr p] []
        = .error (.valueError orderMsg)) := by
  intro e b p l nm
  exact ⟨rfl, rfl, rfl, rfl, rfl⟩

/-- C9: every operation attempted on the Void node — attribute access,
indexing, binary operator, unary operator, comparison — returns the
"invalid operation with void node" TypeError (the spec's
InvalidOperandError) and never a node. -/
theorem C9_void_operand_always_raises :
    ∀ (a opName : String) (i other : Expr),
      Expr.attr .Void a
        = .error (.typeError "invalid operation with void node: getattr")
      ∧ Expr.index .Void i
        = .error (.typeError "invalid operation with void node: getindex")
      ∧ Expr.binary_op .Void opName other
        = .error (.typeError "invalid operation with void node: binary operator")
      ∧ Expr.unary_op .Void opName
        = .error (.typeError "invalid operation with void node: unary operator")
      ∧ Expr.comparison_op .Void opName other
        = .error (.typeError "invalid operation with void node: comparison operator") := by
  intro a opName i other
  exact ⟨rfl, rfl, rfl, rfl, rfl⟩

/-- C4: the BinOp wrapping rule.  A BinOp child is parenthesized exactly
when its precedence level is strictly below the parent's (so equal or
higher precedence is never parenthesized); a UnaryOp, And or Or child is
always parenthesized; and the two concrete scenarios render as
"(1 + 2) * 3" and "1 + 2 * 3". -/
theorem C4_binop_child_wrapping :
    (∀ (t t2 : BinaryOpTag) (l r : Expr) (role : String),
        BinOp.wrap_child_tokens t (.BinOp t2 l r) role
          = decide (t2.precedence_level < t.precedence_level))
    ∧ (∀ (t : BinaryOpTag) (u : UnaryOpTag) (e : Expr) (role : String),
        BinOp.wrap_child_tokens t (.UnaryOp u e) role = true)
    ∧ (∀ (t : BinaryOpTag) (l r : Expr) (role : String),
        BinOp.wrap_child_tokens t (.And l r) role = true)
    ∧ (∀ (t : BinaryOpTag) (l r : Expr) (role : String),
        BinOp.wrap_child_tokens t (.Or l r) role = true)
    ∧ exprStr (.BinOp .mul (.BinOp .add (.Atom (.int 1)) (.Atom (.int 2)))
          (.Atom (.int 3))) = "(1 + 2) * 3"
    ∧ exprStr (.BinOp .add (.Atom (.int 1))
          (.BinOp .mul (.Atom (.int 2)) (.Atom (.int 3)))) = "1 + 2 * 3" := by
  refine ⟨fun t t2 l r role => rfl, fun t u e role => rfl,
    fun t l r role => rfl, fun t l r role => rfl, rfl, rfl⟩

/-- C5: Ternary rendering parenthesizes the then-branch exactly when it is
itself a Ternary, the condition exactly when it is itself a Ternary, and
never the else-branch; the nested else-branch scenario renders as
"1 if c else 2 if d else 3". -/
theorem C5_ternary_wrapping :
    (∀ c t o : Expr,
        Expr.tokens (.Ternary c t o)
          = (if t.isTernary then "(" :: (t.tokens ++ [")"]) else t.tokens)
            ++ [" if "]
            ++ (if c.isTernary then "(" :: (c.tokens ++ [")"]) else c.tokens)
            ++ [" else "]
            ++ o.tokens)
    ∧ exprStr (.Ternary (.Name "c") (.Atom (.int 1))
          (.Ternary (.Name "d") (.Atom (.int 2)) (.Atom (.int 3))))
        = "1 if c else 2 if d else 3" := by
  exact ⟨fun c t o => rfl, rfl⟩

/-- C6: the GetAttr base and the Call callee are parenthesized under
exactly the same rule: the child is a BinOp, UnaryOp, And or Or node, or
an Atom holding a numeric value (where the host's bool is a subtype of
int and therefore counts as numeric); every other base/callee renders
unwrapped.  The second and third conjuncts show both token productions
route the decision through that predicate. -/
theorem C6_getattr_call_callee_wrapping :
    ∀ (b : Expr) (a : String) (args : List Expr),
      (GetAttr.wrap_child_tokens b = true ↔
        ((∃ t l r, b = .BinOp t l r) ∨ (∃ u e, b = .UnaryOp u e)
          ∨ (∃ l r, b = .And l r) ∨ (∃ l r, b = .Or l r)
          ∨ (∃ v, b = .Atom v ∧ v.isNumeric = true)))
      ∧ Expr.tokens (.GetAttr b a)
          = wrap_tokens b.tokens (GetAttr.wrap_child_tokens b) ++ [".", a]
      ∧ Expr.tokens (.Call b args)
          = wrap_tokens b.tokens (GetAttr.wrap_child_tokens b)
            ++ ["("] ++ Expr.argsTokens args ++ [")"] := by
  intro b a args
  refine ⟨?_, rfl, ?_⟩
  · cases b <;> simp [GetAttr.wrap_child_tokens]
  · cases b <;> simp [Expr.tokens, GetAttr.wrap_child_tokens, wrap_tokens]

/-- Helper: the first-then-rest iterator loop of Call.tokens produces the
argument fragment lists interleaved with the ", " separator. -/
lemma argsTokens_eq_intercalate (args : List Expr) :
    Expr.argsTokens args = List.intercalate [", "] (args.map Expr.tokens) := by
  induction args with
  | nil => rfl
  | cons a rest ih =>
    cases rest with
    | nil => simp [Expr.argsTokens, Expr.argsRest, List.intercalate]
    | cons b r =>
      have hrest : Expr.argsTokens (b :: r)
          = List.intercalate [", "] ((b :: r).map Expr.tokens) := ih
      simp only [Expr.argsTokens, Expr.argsRest, List.map_cons,
        List.intercalate, List.intersperse] at hrest ⊢
      rw [hrest]
      simp

/-- C7: Call rendering is the (possibly wrapped) callee fragments, "(",
the arguments' fragments in list order separated by ", ", then ")"; an
empty argument list renders as plain "()"; and the concrete scenario
Call(Name("f"), [Starred(Name("args")), Keyword(Atom(1), name="x")])
renders as "f(*args, x=1)". -/
theorem C7_call_rendering :
    (∀ (c : Expr) (args : List Expr),
        Expr.tokens (.Call c args)
          = wrap_tokens c.tokens (GetAttr.wrap_child_tokens c)
            ++ ["("] ++ List.intercalate [", "] (args.map Expr.tokens) ++ [")"])
    ∧ Expr.tokens (.Call (.Name "f") []) = ["f", "(", ")"]
    ∧ exprStr (.Call (.Name "f")
          [.Starred (.Name "args") false, .Keyword (.Atom (.int 1)) "x"])
        = "f(*args, x=1)" := by
  refine ⟨?_, rfl, rfl⟩
  intro c args
  rw [← argsTokens_eq_intercalate]
  cases c <;> simp [Expr.tokens, GetAttr.wrap_child_tokens, wrap_tokens]

/-- C8: folding a BinOp over literal children is exactly the coercion of
the host operator's result: whenever the operator's underlying host
function succeeds on the literal operands, from_static_children returns
to_expr of that host result. -/
theorem C8_binop_fold_is_host_op_then_coerce
    (op : BinaryOpTag) (a b v : PyVal) (h : op.function a b = .ok v) :
    BinOp.from_static_children op a b = .ok (to_expr v) := by
  unfold BinOp.from_static_children
  rw [h]
  rfl

/-- C8 witness: 2 + 3 folds to the coercion of 5. -/
theorem C8_binop_fold_is_host_op_then_coerce_witness :
    BinOp.from_static_children .add (.int 2) (.int 3) = .ok (to_expr (.int 5)) :=
  C8_binop_fold_is_host_op_then_coerce .add (.int 2) (.int 3) (.int 5) rfl

/-- Helper: a string that does not begin with one star does not begin with
two stars either. -/
lemma pyStartsWith_dstar_false (s : String) (h : pyStartsWith s "*" = false) :
    pyStartsWith s "**" = false := by
  have h1 : ("*" : String).toList = ["*".toList.head!] := rfl
  unfold pyStartsWith at h ⊢
  have hs : ("*" : String).toList = ['*'] := rfl
  have hd : ("**" : String).toList = ['*', '*'] := rfl
  rw [hs] at h
  rw [hd]
  cases hl : s.toList with
  | nil => rfl
  | cons c t =>
    rw [hl] at h
    simp [List.isPrefixOf] at h ⊢
    intro hc
    exact absurd hc h

/-- C10: a plain string positional input that does not begin with "*"
makes the builder raise the TypeError "expect expression, got str" — in
any position of the positional loop and for the builder as a whole — and
is never coerced into a Name node, unlike to_expr, which maps a plain
string to Name. -/
theorem C10_plain_string_positional_raises
    (s : String) (rest : List ArgInput) (kwargs : List (String × Expr))
    (hk : Bool) (h : pyStartsWith s "*" = false) :
    genArgsAux hk (.str s :: rest)
      = .error (.typeError "expect expression, got str")
    ∧ build_arguments (.str s :: rest) kwargs
      = .error (.typeError "expect expression, got str")
    ∧ to_expr (.str s) = .Name s := by
  have h2 := pyStartsWith_dstar_false s h
  have hg : genArgsAux hk (.str s :: rest)
      = .error (.typeError "expect expression, got str") := by
    rw [genArgsAux.eq_def]
    simp [h, h2]
  have hg0 : genArgsAux false (.str s :: rest)
      = .error (.typeError "expect expression, got str") := by
    rw [genArgsAux.eq_def]
    simp [h, h2]
  refine ⟨hg, ?_, rfl⟩
  simp [build_arguments, generate_args, hg0, Except.map]

/-- C10 witness: the plain string "abc" as a positional argument. -/
theorem C10_plain_string_positional_raises_witness :
    genArgsAux false [.str "abc"]
      = .error (.typeError "expect expression, got str")
    ∧ build_arguments [.str "abc"] []
      = .error (.typeError "expect expression, got str")
    ∧ to_expr (.str "abc") = .Name "abc" :=
  C10_plain_string_positional_raises "abc" [] [] false rfl
